import Mathlib

/-!
Verification development for the Iris exploratory-data-analysis dashboard
(`src/app.py`).  The script loads the fixed Iris table, derives a species
label column, renders summary metrics and tables, and computes four derived
views (histogram, scatter, correlation heatmap, species pie) from a small
control state (histogram column, bin count, scatter X/Y columns).

The embedding models:
* the loaded dataset `iris_df` (150 records: 4 numeric measurement columns
  in centimeters plus a species label) — the table shipped by
  `sklearn.datasets.load_iris`, reproduced value-for-value as exact
  rationals (each source value has one decimal digit, so `row a b c d s`
  stores the measurements `a/10`, `b/10`, `c/10`, `d/10`);
* the sidebar control surface and the control state it populates;
* the four derived-view computations, with the library calls
  (`px.histogram`, `px.scatter`, `DataFrame.corr`, `value_counts`,
  `describe`) modelled by their documented semantics over exact rationals
  (floating-point rounding is abstracted away; the float NaN produced by a
  zero-variance correlation is modelled as `Option.none`).
-/

set_option maxRecDepth 4000

namespace IrisEDA

/-- The species label attached by `iris_df['species'] = target_names[target]`;
`load_iris` has exactly these three target names. -/
inductive Species where
  | setosa
  | versicolor
  | virginica
deriving DecidableEq, Repr

/-- One row of `iris_df`: the four numeric measurements (centimeters, exact
rationals) plus the derived species label. -/
structure Record where
  sepalLength : ℚ
  sepalWidth  : ℚ
  petalLength : ℚ
  petalWidth  : ℚ
  species     : Species
deriving DecidableEq, Repr

/-- Builds one record from measurements given in tenths of a centimeter
(the source data has exactly one decimal digit per value, so `row 51 35 14 2 s`
is the record `(5.1, 3.5, 1.4, 0.2, s)` with exact rational values). -/
def row (a b c d : ℕ) (s : Species) : Record :=
  ⟨mkRat a 10, mkRat b 10, mkRat c 10, mkRat d 10, s⟩

/-- Rows 1–50 of the Iris table (species *setosa*), in `load_iris` file order. -/
def iris_rows_setosa : List Record := [
  row 51 35 14 2 .setosa,
  row 49 30 14 2 .setosa,
  row 47 32 13 2 .setosa,
  row 46 31 15 2 .setosa,
  row 50 36 14 2 .setosa,
  row 54 39 17 4 .setosa,
  row 46 34 14 3 .setosa,
  row 50 34 15 2 .setosa,
  row 44 29 14 2 .setosa,
  row 49 31 15 1 .setosa,
  row 54 37 15 2 .setosa,
  row 48 34 16 2 .setosa,
  row 48 30 14 1 .setosa,
  row 43 30 11 1 .setosa,
  row 58 40 12 2 .setosa,
  row 57 44 15 4 .setosa,
  row 54 39 13 4 .setosa,
  row 51 35 14 3 .setosa,
  row 57 38 17 3 .setosa,
  row 51 38 15 3 .setosa,
  row 54 34 17 2 .setosa,
  row 51 37 15 4 .setosa,
  row 46 36 10 2 .setosa,
  row 51 33 17 5 .setosa,
  row 48 34 19 2 .setosa,
  row 50 30 16 2 .setosa,
  row 50 34 16 4 .setosa,
  row 52 35 15 2 .setosa,
  row 52 34 14 2 .setosa,
  row 47 32 16 2 .setosa,
  row 48 31 16 2 .setosa,
  row 54 34 15 4 .setosa,
  row 52 41 15 1 .setosa,
  row 55 42 14 2 .setosa,
  row 49 31 15 1 .setosa,
  row 50 32 12 2 .setosa,
  row 55 35 13 2 .setosa,
  row 49 31 15 1 .setosa,
  row 44 30 13 2 .setosa,
  row 51 34 15 2 .setosa,
  row 50 35 13 3 .setosa,
  row 45 23 13 3 .setosa,
  row 44 32 13 2 .setosa,
  row 50 35 16 6 .setosa,
  row 51 38 19 4 .setosa,
  row 48 30 14 3 .setosa,
  row 51 38 16 2 .setosa,
  row 46 32 14 2 .setosa,
  row 53 37 15 2 .setosa,
  row 50 33 14 2 .setosa]

/-- Rows 51–100 of the Iris table (species *versicolor*). -/
def iris_rows_versicolor : List Record := [
  row 70 32 47 14 .versicolor,
  row 64 32 45 15 .versicolor,
  row 69 31 49 15 .versicolor,
  row 55 23 40 13 .versicolor,
  row 65 28 46 15 .versicolor,
  row 57 28 45 13 .versicolor,
  row 63 33 47 16 .versicolor,
  row 49 24 33 10 .versicolor,
  row 66 29 46 13 .versicolor,
  row 52 27 39 14 .versicolor,
  row 50 20 35 10 .versicolor,
  row 59 30 42 15 .versicolor,
  row 60 22 40 10 .versicolor,
  row 61 29 47 14 .versicolor,
  row 56 29 36 13 .versicolor,
  row 67 31 44 14 .versicolor,
  row 56 30 45 15 .versicolor,
  row 58 27 41 10 .versicolor,
  row 62 22 45 15 .versicolor,
  row 56 25 39 11 .versicolor,
  row 59 32 48 18 .versicolor,
  row 61 28 40 13 .versicolor,
  row 63 25 49 15 .versicolor,
  row 61 28 47 12 .versicolor,
  row 64 29 43 13 .versicolor,
  row 66 30 44 14 .versicolor,
  row 68 28 48 14 .versicolor,
  row 67 30 50 17 .versicolor,
  row 60 29 45 15 .versicolor,
  row 57 26 35 10 .versicolor,
  row 55 24 38 11 .versicolor,
  row 55 24 37 10 .versicolor,
  row 58 27 39 12 .versicolor,
  row 60 27 51 16 .versicolor,
  row 54 30 45 15 .versicolor,
  row 60 34 45 16 .versicolor,
  row 67 31 47 15 .versicolor,
  row 63 23 44 13 .versicolor,
  row 56 30 41 13 .versicolor,
  row 55 25 40 13 .versicolor,
  row 55 26 44 12 .versicolor,
  row 61 30 46 14 .versicolor,
  row 58 26 40 12 .versicolor,
  row 50 23 33 10 .versicolor,
  row 56 27 42 13 .versicolor,
  row 57 30 42 12 .versicolor,
  row 57 29 42 13 .versicolor,
  row 62 29 43 13 .versicolor,
  row 51 25 30 11 .versicolor,
  row 57 28 41 13 .versicolor]

/-- Rows 101–150 of the Iris table (species *virginica*). -/
def iris_rows_virginica : List Record := [
  row 63 33 60 25 .virginica,
  row 58 27 51 19 .virginica,
  row 71 30 59 21 .virginica,
  row 63 29 56 18 .virginica,
  row 65 30 58 22 .virginica,
  row 76 30 66 21 .virginica,
  row 49 25 45 17 .virginica,
  row 73 29 63 18 .virginica,
  row 67 25 58 18 .virginica,
  row 72 36 61 25 .virginica,
  row 65 32 51 20 .virginica,
  row 64 27 53 19 .virginica,
  row 68 30 55 21 .virginica,
  row 57 25 50 20 .virginica,
  row 58 28 51 24 .virginica,
  row 64 32 53 23 .virginica,
  row 65 30 55 18 .virginica,
  row 77 38 67 22 .virginica,
  row 77 26 69 23 .virginica,
  row 60 22 50 15 .virginica,
  row 69 32 57 23 .virginica,
  row 56 28 49 20 .virginica,
  row 77 28 67 20 .virginica,
  row 63 27 49 18 .virginica,
  row 67 33 57 21 .virginica,
  row 72 32 60 18 .virginica,
  row 62 28 48 18 .virginica,
  row 61 30 49 18 .virginica,
  row 64 28 56 21 .virginica,
  row 72 30 58 16 .virginica,
  row 74 28 61 19 .virginica,
  row 79 38 64 20 .virginica,
  row 64 28 56 22 .virginica,
  row 63 28 51 15 .virginica,
  row 61 26 56 14 .virginica,
  row 77 30 61 23 .virginica,
  row 63 34 56 24 .virginica,
  row 64 31 55 18 .virginica,
  row 60 30 48 18 .virginica,
  row 69 31 54 21 .virginica,
  row 67 31 56 24 .virginica,
  row 69 31 51 23 .virginica,
  row 58 27 51 19 .virginica,
  row 68 32 59 23 .virginica,
  row 67 33 57 25 .virginica,
  row 67 30 52 23 .virginica,
  row 63 25 50 19 .virginica,
  row 65 30 52 20 .virginica,
  row 62 34 54 23 .virginica,
  row 59 30 51 18 .virginica]


/-- The loaded dataset `iris_df`: the 150 rows of `sklearn.datasets.load_iris`
(the canonical UCI Iris table) in file order — 50 setosa, then 50 versicolor,
then 50 virginica. -/
def iris_df : List Record :=
  iris_rows_setosa ++ iris_rows_versicolor ++ iris_rows_virginica

/-- The four numeric feature columns of `iris_df`
(`select_dtypes(include=['float64','int64'])` keeps exactly these; the
`species` column has object dtype and is excluded). -/
inductive Column where
  | sepalLength
  | sepalWidth
  | petalLength
  | petalWidth
deriving DecidableEq, Repr

/-- Projection of a record onto a numeric column. -/
def colValue : Column → Record → ℚ
  | .sepalLength, r => r.sepalLength
  | .sepalWidth,  r => r.sepalWidth
  | .petalLength, r => r.petalLength
  | .petalWidth,  r => r.petalWidth

/-- `numeric_columns`: the list of numeric columns offered by every dropdown
(`iris_df.select_dtypes(include=['float64','int64']).columns.tolist()`). -/
def numeric_columns : List Column :=
  [.sepalLength, .sepalWidth, .petalLength, .petalWidth]

/-- The sklearn feature name of each numeric column
(`iris_dataset.feature_names`). -/
def columnName : Column → String
  | .sepalLength => "sepal length (cm)"
  | .sepalWidth  => "sepal width (cm)"
  | .petalLength => "petal length (cm)"
  | .petalWidth  => "petal width (cm)"

/-- `iris_dataset.feature_names`, the documented names of the 4 numeric
feature columns. -/
def feature_names : List String := numeric_columns.map columnName

/-- The values of one numeric column of a dataset, in row order. -/
def columnValues (ds : List Record) (c : Column) : List ℚ :=
  ds.map (colValue c)

/-- The sidebar control state: one slot per widget, named after the
`st.session_state` keys used in the script (`histogram_column`,
`histogram_bins`, `scatter_x`, `scatter_y`). -/
structure ControlState where
  histogram_column : Column
  histogram_bins   : ℕ
  scatter_x        : Column
  scatter_y        : Column
deriving DecidableEq, Repr

/-- The control state at startup: each selectbox defaults to its `index`
argument (0 when omitted; the scatter Y-axis passes
`index=1 if len(numeric_columns) > 1 else 0`), and the bins slider defaults
to its `value=20`. -/
def defaultControls : ControlState :=
  { histogram_column := (numeric_columns.getD 0 .sepalLength)
    histogram_bins   := 20
    scatter_x        := (numeric_columns.getD 0 .sepalLength)
    scatter_y        :=
      numeric_columns.getD (if numeric_columns.length > 1 then 1 else 0) .sepalLength }

/-- User interaction with the histogram-column dropdown: overwrites the
`histogram_column` slot. -/
def setHistogramColumn (s : ControlState) (c : Column) : ControlState :=
  { s with histogram_column := c }

/-- User interaction with the bins slider: overwrites the `histogram_bins`
slot. -/
def setHistogramBins (s : ControlState) (n : ℕ) : ControlState :=
  { s with histogram_bins := n }

/-- User interaction with the scatter X-axis dropdown: overwrites the
`scatter_x` slot. -/
def setScatterX (s : ControlState) (c : Column) : ControlState :=
  { s with scatter_x := c }

/-- User interaction with the scatter Y-axis dropdown: overwrites the
`scatter_y` slot. -/
def setScatterY (s : ControlState) (c : Column) : ControlState :=
  { s with scatter_y := c }

/-- One sidebar widget, as configured in the script: a column dropdown
(`st.sidebar.selectbox` with its `options` and default `index`) or the
integer bins slider (`st.sidebar.slider` with `min_value`, `max_value`,
default `value` and `step`). -/
inductive SidebarControl where
  | selectbox (options : List Column) (index : ℕ)
  | slider (minValue maxValue value step : ℕ)
deriving DecidableEq, Repr

/-- The full user input surface, in the order the script declares it:
histogram-column dropdown, bins slider, scatter X dropdown, scatter Y
dropdown. -/
def sidebar_controls : List SidebarControl :=
  [ .selectbox numeric_columns 0,
    .slider 5 50 20 1,
    .selectbox numeric_columns 0,
    .selectbox numeric_columns (if numeric_columns.length > 1 then 1 else 0) ]

/-- Smallest element of a list of rationals (0 for the empty list, which
never occurs for the loaded dataset). -/
def listMin : List ℚ → ℚ
  | [] => 0
  | v :: vs => vs.foldl (fun a b => if b < a then b else a) v

/-- Largest element of a list of rationals (0 for the empty list). -/
def listMax : List ℚ → ℚ
  | [] => 0
  | v :: vs => vs.foldl (fun a b => if a < b then b else a) v

/-- Modelled from the spec: the equal-width bin assignment of the histogram
view (the actual binning runs inside the plotly rendering layer, which
`src/app.py` only calls with `nbins=histogram_bins`).  A value `v` of a
column ranging over `[lo, hi]` falls in bin `⌊(v - lo)·n/(hi - lo)⌋`,
clamped to the last bin so that `v = hi` lands in bin `n - 1`. -/
def binIndex (lo hi : ℚ) (n : ℕ) (v : ℚ) : ℕ :=
  min (Int.toNat ⌊(v - lo) * n / (hi - lo)⌋) (n - 1)

/-- One histogram bin: its rational bounds and the per-species counts
(`color="species"` splits each bin into the 3 species). -/
structure HistogramBin where
  lower : ℚ
  upper : ℚ
  setosaCount : ℕ
  versicolorCount : ℕ
  virginicaCount : ℕ
deriving DecidableEq, Repr

/-- Number of records of species `sp` whose `c`-value falls in bin `i` of
the `n`-bin equal-width partition of the observed range of column `c`. -/
def speciesBinCount (ds : List Record) (c : Column) (n : ℕ) (sp : Species) (i : ℕ) : ℕ :=
  ((ds.filter (fun r => r.species = sp)).filter
      (fun r =>
        binIndex (listMin (columnValues ds c)) (listMax (columnValues ds c)) n
            (colValue c r) = i)).length

/-- Modelled from the spec: the histogram view produced by
`px.histogram(iris_df, x=selected_column, nbins=histogram_bins,
color="species", barmode="overlay")` — `n` equal-width bins over the
observed min–max range of the selected column, each carrying per-species
counts. -/
def histogramView (ds : List Record) (c : Column) (n : ℕ) : List HistogramBin :=
  let lo := listMin (columnValues ds c)
  let hi := listMax (columnValues ds c)
  (List.range n).map (fun (i : ℕ) =>
    { lower := lo + (i : ℚ) * (hi - lo) / n
      upper := lo + ((i : ℚ) + 1) * (hi - lo) / n
      setosaCount := speciesBinCount ds c n .setosa i
      versicolorCount := speciesBinCount ds c n .versicolor i
      virginicaCount := speciesBinCount ds c n .virginica i })

/-- Sum of all per-species counts over all bins of a histogram view. -/
def histogramTotal (bins : List HistogramBin) : ℕ :=
  (bins.map (fun b => b.setosaCount + b.versicolorCount + b.virginicaCount)).sum

/-- One scatter point: `px.scatter(iris_df, x=scatter_x_column,
y=scatter_y_column, color="species")` emits one point per record. -/
structure ScatterPoint where
  x : ℚ
  y : ℚ
  species : Species
deriving DecidableEq, Repr

/-- The scatter view: one point per record at
(x = X-column value, y = Y-column value), colored by species. -/
def scatterPoints (ds : List Record) (cx cy : Column) : List ScatterPoint :=
  ds.map (fun r => ⟨colValue cx r, colValue cy r, r.species⟩)

/-- Arithmetic mean of a list of rationals (0 for the empty list, since
`[].sum / 0 = 0` in `ℚ`). -/
def mean (x : List ℚ) : ℚ :=
  x.sum / (x.length : ℚ)

/-- Sample covariance of two equally long columns, with the `n - 1`
normalization pandas uses (`ddof=1`). -/
def covQ (x y : List ℚ) : ℚ :=
  (List.zipWith (fun a b => (a - mean x) * (b - mean y)) x y).sum / ((x.length : ℚ) - 1)

/-- Sample variance of a column. -/
def varQ (x : List ℚ) : ℚ :=
  covQ x x

/-- Pearson correlation of two columns as computed by
`iris_df[numeric_columns].corr()`: covariance over the product of standard
deviations.  A zero-variance column makes the float computation divide by
zero, which pandas surfaces as the NaN sentinel rather than an exception;
that sentinel is modelled as `none`. -/
noncomputable def pearson (x y : List ℚ) : Option ℝ :=
  if varQ x = 0 ∨ varQ y = 0 then none
  else some ((covQ x y : ℝ) / (Real.sqrt (varQ x) * Real.sqrt (varQ y)))

/-- `correlation_matrix`: the 4×4 matrix of pairwise Pearson correlations
of the numeric columns. -/
noncomputable def correlation_matrix (ds : List Record) (i j : Column) : Option ℝ :=
  pearson (columnValues ds i) (columnValues ds j)

/-- The declarative heatmap configuration the script passes to
`go.Heatmap` (besides the `z` values): axis labels, the `RdBu` colorscale,
`zmid=0`, and the cell text template string `"%.2f"`. -/
structure HeatmapSpec where
  x : List String
  y : List String
  colorscale : String
  zmid : ℚ
  texttemplate : String
deriving DecidableEq, Repr

/-- The heatmap configuration built at lines 151–162 of `src/app.py`. -/
def heatmap : HeatmapSpec :=
  { x := feature_names
    y := feature_names
    colorscale := "RdBu"
    zmid := 0
    texttemplate := "%.2f" }

/-- Modelled from plotly's documented `texttemplate` semantics: the template
is rendered by substituting every variable reference written as
`%` followed by a braced name (optionally with a d3 format suffix) with the
looked-up value; every other character is copied literally.  A template
containing no such reference therefore renders as its own literal text in
every cell. -/
def renderTemplate (lookup : String → String) : List Char → List Char
  | [] => []
  | '%' :: '{' :: rest =>
      (lookup (String.mk (rest.takeWhile (fun c => c ≠ '}')))).data ++
        renderTemplate lookup ((rest.dropWhile (fun c => c ≠ '}')).drop 1)
  | c :: rest => c :: renderTemplate lookup rest
termination_by cs => cs.length
decreasing_by
  · have h : (List.dropWhile (fun c => decide (c ≠ '}')) rest).length ≤ rest.length :=
      (List.dropWhile_sublist _).length_le
    simp only [List.length_drop, List.length_cons]
    omega
  · simp only [List.length_cons]
    omega

/-- Number of records carrying a given species label. -/
def countSpecies (ds : List Record) (sp : Species) : ℕ :=
  (ds.filter (fun r => r.species = sp)).length

/-- Insertion into a count-descending list; the inserted entry goes before
entries of equal count, so the insertion sort below is stable (ties keep
first-seen order, matching the stable sort of `value_counts`). -/
def insertByCountDesc (p : Species × ℕ) : List (Species × ℕ) → List (Species × ℕ)
  | [] => [p]
  | q :: l => if q.2 ≤ p.2 then p :: q :: l else q :: insertByCountDesc p l

/-- Stable sort by count, descending. -/
def sortByCountDesc : List (Species × ℕ) → List (Species × ℕ)
  | [] => []
  | p :: l => insertByCountDesc p (sortByCountDesc l)

/-- `species_counts = iris_df['species'].value_counts()`: one entry per
distinct species label with its record count, sorted by count descending
(first-seen order for ties); the pie chart draws one slice per entry. -/
def species_counts (ds : List Record) : List (Species × ℕ) :=
  sortByCountDesc ((ds.map (fun r => r.species)).dedup.map (fun sp => (sp, countSpecies ds sp)))

/-- Ordered insertion of a rational into an ascending list. -/
def insertAsc (v : ℚ) : List ℚ → List ℚ
  | [] => [v]
  | w :: l => if v ≤ w then v :: w :: l else w :: insertAsc v l

/-- Insertion sort, ascending; used for the quantile rows of `describe()`. -/
def sortAsc : List ℚ → List ℚ
  | [] => []
  | v :: l => insertAsc v (sortAsc l)

/-- The `q`-quantile of a column with pandas' default linear interpolation:
position `q·(n-1)` in the sorted values, interpolating between the two
neighbouring order statistics. -/
def quantile (x : List ℚ) (q : ℚ) : ℚ :=
  match sortAsc x with
  | [] => 0
  | v :: l =>
      let s := v :: l
      let pos : ℚ := q * ((s.length : ℚ) - 1)
      let k : ℕ := Int.toNat ⌊pos⌋
      let lower := s.getD k v
      let upper := s.getD (k + 1) lower
      lower + (pos - (⌊pos⌋ : ℚ)) * (upper - lower)

/-- One column of the `iris_df.describe()` table: count, mean, std, min,
quartiles, max.  `count` is the number of non-null entries, and every
embedded entry is a present rational, so it equals the column length. -/
structure ColumnStats where
  count : ℕ
  mean : ℚ
  std : ℝ
  min : ℚ
  q25 : ℚ
  q50 : ℚ
  q75 : ℚ
  max : ℚ

/-- The `describe()` row block for one numeric column. -/
noncomputable def describeColumn (ds : List Record) (c : Column) : ColumnStats :=
  { count := (columnValues ds c).length
    mean := mean (columnValues ds c)
    std := Real.sqrt (varQ (columnValues ds c))
    min := listMin (columnValues ds c)
    q25 := quantile (columnValues ds c) (1/4)
    q50 := quantile (columnValues ds c) (1/2)
    q75 := quantile (columnValues ds c) (3/4)
    max := listMax (columnValues ds c) }

/-- The `count` row of the summary statistics table for one column
(`describe()` counts non-null entries; the embedding has no missing
values, so this is the column length). -/
def describeCount (ds : List Record) (c : Column) : ℕ :=
  (columnValues ds c).length

/-- The `Total Samples` metric: `len(iris_df)`. -/
def totalSamples (ds : List Record) : ℕ :=
  ds.length

/-- The `Total Features` metric: `len(iris_dataset.feature_names)`. -/
def totalFeatures : ℕ :=
  feature_names.length

/-- The `Species Classes` metric: `iris_df['species'].nunique()`. -/
def speciesClasses (ds : List Record) : ℕ :=
  (ds.map (fun r => r.species)).dedup.length

/-- Everything one render pass of the script computes from the dataset and
the control state: the three scalar metrics, the preview table
(`head(10)`), the statistics table (`describe()`), and the four derived
views. -/
structure RenderOutput where
  metricSamples : ℕ
  metricFeatures : ℕ
  metricSpecies : ℕ
  preview : List Record
  stats : Column → ColumnStats
  histogram : List HistogramBin
  scatter : List ScatterPoint
  heatmapZ : Column → Column → Option ℝ
  heatmapSpec : HeatmapSpec
  pie : List (Species × ℕ)

/-- One full render pass: the script recomputes every view from scratch on
each rerun.  The pass only reads the dataset; the second component is the
dataset as it stands after the pass (the embedding of the fact that no view
computation writes to `iris_df`). -/
noncomputable def renderPass (ds : List Record) (cs : ControlState) : RenderOutput × List Record :=
  ({ metricSamples := totalSamples ds
     metricFeatures := totalFeatures
     metricSpecies := speciesClasses ds
     preview := ds.take 10
     stats := describeColumn ds
     histogram := histogramView ds cs.histogram_column cs.histogram_bins
     scatter := scatterPoints ds cs.scatter_x cs.scatter_y
     heatmapZ := correlation_matrix ds
     heatmapSpec := heatmap
     pie := species_counts ds }, ds)

end IrisEDA

namespace IrisEDA

/-- Summing a pointwise sum of two natural-valued functions over a list
splits into two sums. -/
theorem sum_map_add {α : Type} (l : List α) (f g : α → ℕ) :
    (l.map (fun a => f a + g a)).sum = (l.map f).sum + (l.map g).sum := by
  induction l with
  | nil => simp
  | cons a t ih => simp only [List.map_cons, List.sum_cons, ih]; omega

/-- An indicator of a key that lies outside `range n` sums to 0. -/
theorem sum_range_ite_zero (k n : ℕ) (h : n ≤ k) :
    ((List.range n).map (fun i => if k = i then (1 : ℕ) else 0)).sum = 0 := by
  induction n with
  | zero => simp
  | succ m ih =>
      have hm : m ≤ k := Nat.le_of_succ_le h
      have hk : k ≠ m := by omega
      rw [List.range_succ, List.map_append, List.sum_append, ih hm]
      simp [hk]

/-- An indicator of a key inside `range n` sums to 1. -/
theorem sum_range_ite_one (k n : ℕ) (h : k < n) :
    ((List.range n).map (fun i => if k = i then (1 : ℕ) else 0)).sum = 1 := by
  induction n with
  | zero => omega
  | succ m ih =>
      rw [List.range_succ, List.map_append, List.sum_append]
      by_cases hkm : k = m
      · subst hkm
        rw [sum_range_ite_zero k k le_rfl]
        simp
      · have hlt : k < m := by omega
        rw [ih hlt]
        simp [hkm]

/-- Bucketing a list by a key function with keys below `n` partitions it:
the bucket sizes over `range n` sum to the length of the list. -/
theorem length_filter_key_sum {α : Type} (l : List α) (f : α → ℕ) (n : ℕ)
    (h : ∀ a ∈ l, f a < n) :
    ((List.range n).map (fun i => (l.filter (fun a => f a = i)).length)).sum = l.length := by
  induction l with
  | nil => simp
  | cons a t ih =>
      have ha : f a < n := h a (List.mem_cons_self a t)
      have ht : ∀ b ∈ t, f b < n := fun b hb => h b (List.mem_cons_of_mem a hb)
      have hmap : (List.range n).map (fun i => ((a :: t).filter (fun b => f b = i)).length)
          = (List.range n).map
              (fun i => (if f a = i then 1 else 0) + (t.filter (fun b => f b = i)).length) := by
        congr 1
        funext i
        by_cases hfa : f a = i
        · simp [List.filter_cons, hfa]
          omega
        · simp [List.filter_cons, hfa]
      rw [hmap, sum_map_add, sum_range_ite_one (f a) n ha, ih ht, List.length_cons]
      omega

/-- Every record carries one of the three species labels, so the three
per-species sublists partition any list of records. -/
theorem three_species_length (l : List Record) :
    (l.filter (fun r => r.species = Species.setosa)).length +
      (l.filter (fun r => r.species = Species.versicolor)).length +
      (l.filter (fun r => r.species = Species.virginica)).length = l.length := by
  induction l with
  | nil => simp
  | cons r t ih =>
      cases hs : r.species <;> simp [List.filter_cons, hs] <;> omega

/-- The clamp in `binIndex` keeps every value inside the `n` bins. -/
theorem binIndex_lt (lo hi : ℚ) (n : ℕ) (v : ℚ) (hn : 0 < n) :
    binIndex lo hi n v < n := by
  unfold binIndex
  have h1 : n - 1 < n := by omega
  exact lt_of_le_of_lt (Nat.min_le_right _ _) h1

/-- A list of nonnegative rationals with a positive member has positive sum. -/
theorem list_sum_pos_of_mem (l : List ℚ) (h : ∀ a ∈ l, 0 ≤ a) (a : ℚ)
    (ha : a ∈ l) (hpos : 0 < a) : 0 < l.sum := by
  induction ha with
  | head t =>
      rw [List.sum_cons]
      have ht : 0 ≤ t.sum :=
        List.sum_nonneg (fun x hx => h x (List.mem_cons_of_mem _ hx))
      linarith
  | @tail b as hmem ih =>
      rw [List.sum_cons]
      have hb : 0 ≤ b := h b (List.mem_cons_self _ _)
      have ht : 0 < as.sum := ih (fun x hx => h x (List.mem_cons_of_mem _ hx))
      linarith

/-- The sample variance written as a normalized sum of squared deviations. -/
theorem varQ_eq (x : List ℚ) :
    varQ x =
      (x.map (fun v => (v - mean x) * (v - mean x))).sum / ((x.length : ℚ) - 1) := by
  unfold varQ covQ
  rw [List.zipWith_same]

/-- A column of length ≥ 2 holding two different values has positive sample
variance. -/
theorem varQ_pos (x : List ℚ) (hlen : 2 ≤ x.length) (a b : ℚ)
    (ha : a ∈ x) (hb : b ∈ x) (hab : a ≠ b) : 0 < varQ x := by
  rw [varQ_eq]
  apply div_pos
  · have hnn : ∀ t ∈ x.map (fun v => (v - mean x) * (v - mean x)), 0 ≤ t := by
      intro t ht
      obtain ⟨v, _, rfl⟩ := List.mem_map.mp ht
      exact mul_self_nonneg _
    by_cases ham : a = mean x
    · have hbm : b ≠ mean x := fun hbm => hab (ham.trans hbm.symm)
      exact list_sum_pos_of_mem _ hnn _ (List.mem_map_of_mem _ hb)
        (mul_self_pos.mpr (sub_ne_zero.mpr hbm))
    · exact list_sum_pos_of_mem _ hnn _ (List.mem_map_of_mem _ ha)
        (mul_self_pos.mpr (sub_ne_zero.mpr ham))
  · have h2 : (2 : ℚ) ≤ (x.length : ℚ) := by exact_mod_cast hlen
    linarith

/-- Sample covariance is symmetric for equally long columns. -/
theorem covQ_comm (x y : List ℚ) (h : x.length = y.length) : covQ x y = covQ y x := by
  unfold covQ
  rw [List.zipWith_comm, h]
  have hfun : (fun b a => (a - mean x) * (b - mean y))
      = fun b a => (b - mean y) * (a - mean x) := by
    funext b a
    ring
  rw [hfun]

/-- A constant column has zero sample variance. -/
theorem varQ_replicate (n : ℕ) (v : ℚ) : varQ (List.replicate n v) = 0 := by
  rcases Nat.eq_zero_or_pos n with h0 | hp
  · subst h0
    simp [varQ, covQ, mean]
  · have hn : (n : ℚ) ≠ 0 := by exact_mod_cast hp.ne'
    have hm : mean (List.replicate n v) = v := by
      unfold mean
      rw [List.sum_replicate, List.length_replicate, nsmul_eq_mul]
      exact mul_div_cancel_left₀ v hn
    rw [varQ_eq, hm, List.map_replicate]
    simp

/-- Each of the four numeric columns of the loaded dataset has positive
sample variance (each holds at least two different values). -/
theorem column_var_pos (c : Column) : 0 < varQ (columnValues iris_df c) := by
  have hlen : 2 ≤ (columnValues iris_df c).length := by
    rw [columnValues, List.length_map]
    decide
  cases c
  · exact varQ_pos _ hlen (mkRat 43 10) (mkRat 79 10) (by decide) (by decide) (by decide)
  · exact varQ_pos _ hlen (mkRat 20 10) (mkRat 44 10) (by decide) (by decide) (by decide)
  · exact varQ_pos _ hlen (mkRat 10 10) (mkRat 69 10) (by decide) (by decide) (by decide)
  · exact varQ_pos _ hlen (mkRat 1 10) (mkRat 25 10) (by decide) (by decide) (by decide)

/-- C2: the correlation view computes the sample Pearson correlation over
every pair of the 4 numeric columns, producing a symmetric 4×4 matrix
(`corr[i][j] = corr[j][i]` for all `i, j`) whose diagonal entries are
exactly 1. -/
theorem correlation_matrix_symm_unit_diag :
    (∀ i j : Column, correlation_matrix iris_df i j = correlation_matrix iris_df j i) ∧
    (∀ i : Column, correlation_matrix iris_df i i = some 1) := by
  constructor
  · intro i j
    unfold correlation_matrix pearson
    have hlen : (columnValues iris_df i).length = (columnValues iris_df j).length := by
      simp [columnValues]
    rw [covQ_comm _ _ hlen]
    by_cases hi : varQ (columnValues iris_df i) = 0 <;>
      by_cases hj : varQ (columnValues iris_df j) = 0 <;>
      simp [hi, hj, mul_comm]
  · intro i
    have hpos := column_var_pos i
    have hne : varQ (columnValues iris_df i) ≠ 0 := ne_of_gt hpos
    unfold correlation_matrix pearson
    rw [if_neg (by simp [hne])]
    have hcov : covQ (columnValues iris_df i) (columnValues iris_df i)
        = varQ (columnValues iris_df i) := rfl
    rw [hcov]
    have hnnR : (0 : ℝ) ≤ ((varQ (columnValues iris_df i) : ℚ) : ℝ) := by
      exact_mod_cast le_of_lt hpos
    rw [Real.mul_self_sqrt hnnR]
    have hneR : ((varQ (columnValues iris_df i) : ℚ) : ℝ) ≠ 0 := by
      exact_mod_cast hne
    rw [div_self hneR]

/-- C9: a zero-variance column makes the Pearson computation return the
defined not-a-number-like sentinel (`none`, the embedding of pandas' NaN)
for the affected entries instead of raising, so the render pass proceeds. -/
theorem pearson_zero_variance_sentinel (x y : List ℚ)
    (h : varQ x = 0 ∨ varQ y = 0) : pearson x y = none := by
  unfold pearson
  rw [if_pos h]

/-- Witness for C9 at a concrete degenerate input: a constant column of 150
entries has zero variance, and correlating it against the loaded sepal-width
column yields the sentinel. -/
theorem pearson_zero_variance_sentinel_witness :
    (varQ (List.replicate 150 (mkRat 50 10)) = 0 ∨
        varQ (columnValues iris_df .sepalWidth) = 0) ∧
      pearson (List.replicate 150 (mkRat 50 10)) (columnValues iris_df .sepalWidth) = none := by
  have h0 : varQ (List.replicate 150 (mkRat 50 10)) = 0 := varQ_replicate 150 (mkRat 50 10)
  exact ⟨Or.inl h0,
    pearson_zero_variance_sentinel (List.replicate 150 (mkRat 50 10))
      (columnValues iris_df .sepalWidth) (Or.inl h0)⟩

/-- C3: for every pair of selected scatter columns (including X = Y) the
scatter view emits exactly 150 points, one per record at the record's
column values; when X = Y every point lies on the diagonal. -/
theorem scatter_points_count_and_diag :
    (∀ cx cy : Column, (scatterPoints iris_df cx cy).length = 150) ∧
    (∀ c : Column, ∀ p ∈ scatterPoints iris_df c c, p.x = p.y) := by
  constructor
  · intro cx cy
    rw [scatterPoints, List.length_map]
    decide
  · intro c p hp
    obtain ⟨r, _, rfl⟩ := List.mem_map.mp hp
    rfl

/-- Witness for C3 at the spec's example: with X = Y = sepal width, the point
produced by the first record is emitted and satisfies `x = y`. -/
theorem scatter_points_count_and_diag_witness :
    (⟨mkRat 35 10, mkRat 35 10, .setosa⟩ : ScatterPoint) ∈
        scatterPoints iris_df .sepalWidth .sepalWidth ∧
      (⟨mkRat 35 10, mkRat 35 10, .setosa⟩ : ScatterPoint).x =
        (⟨mkRat 35 10, mkRat 35 10, .setosa⟩ : ScatterPoint).y :=
  ⟨by decide,
    scatter_points_count_and_diag.2 .sepalWidth ⟨mkRat 35 10, mkRat 35 10, .setosa⟩ (by decide)⟩

/-- C4: the pie view emits one slice per distinct species label, the slice
counts are the dataset's per-species record counts (50/50/50), and they sum
to 150. -/
theorem species_counts_slices :
    species_counts iris_df =
        [(.setosa, 50), (.versicolor, 50), (.virginica, 50)] ∧
      ((species_counts iris_df).map (fun p => p.2)).sum = 150 ∧
      (species_counts iris_df).map (fun p => p.1) =
        (iris_df.map (fun r => r.species)).dedup := by
  refine ⟨?_, ?_, ?_⟩ <;> decide

/-- C6: the loaded dataset has exactly 150 records, 4 numeric feature
columns, one label column with exactly 3 distinct values and no missing
entries, so the three scalar metrics read 150, 4 and 3 and the `count` row
of the statistics table reads 150 for every numeric column. -/
theorem dataset_contract :
    iris_df.length = 150 ∧
      numeric_columns.length = 4 ∧
      (iris_df.map (fun r => r.species)).dedup.length = 3 ∧
      totalSamples iris_df = 150 ∧
      totalFeatures = 4 ∧
      speciesClasses iris_df = 3 ∧
      (∀ c : Column, describeCount iris_df c = 150) := by
  refine ⟨by decide, by decide, by decide, by decide, by decide, by decide, ?_⟩
  intro c
  rw [describeCount, columnValues, List.length_map]
  decide

/-- C5: each sidebar interaction overwrites exactly its own control slot —
setting any one of the four fields to any valid value leaves the other
three fields of any control state unchanged. -/
theorem control_state_frame :
    (∀ (s : ControlState) (c : Column), c ∈ numeric_columns →
        (setHistogramColumn s c).histogram_bins = s.histogram_bins ∧
        (setHistogramColumn s c).scatter_x = s.scatter_x ∧
        (setHistogramColumn s c).scatter_y = s.scatter_y) ∧
    (∀ (s : ControlState) (n : ℕ), 5 ≤ n → n ≤ 50 →
        (setHistogramBins s n).histogram_column = s.histogram_column ∧
        (setHistogramBins s n).scatter_x = s.scatter_x ∧
        (setHistogramBins s n).scatter_y = s.scatter_y) ∧
    (∀ (s : ControlState) (c : Column), c ∈ numeric_columns →
        (setScatterX s c).histogram_column = s.histogram_column ∧
        (setScatterX s c).histogram_bins = s.histogram_bins ∧
        (setScatterX s c).scatter_y = s.scatter_y) ∧
    (∀ (s : ControlState) (c : Column), c ∈ numeric_columns →
        (setScatterY s c).histogram_column = s.histogram_column ∧
        (setScatterY s c).histogram_bins = s.histogram_bins ∧
        (setScatterY s c).scatter_x = s.scatter_x) := by
  refine ⟨?_, ?_, ?_, ?_⟩ <;> intros <;> exact ⟨rfl, rfl, rfl⟩

/-- Witness for C5 at concrete inputs: starting from the default control
state, overwriting the histogram column with petal width (a valid option)
and the bin count with 33 (inside [5,50]) leaves the other slots as they
were. -/
theorem control_state_frame_witness :
    ((Column.petalWidth ∈ numeric_columns ∧ 5 ≤ 33 ∧ 33 ≤ 50) ∧
        ((setHistogramColumn defaultControls .petalWidth).histogram_bins =
            defaultControls.histogram_bins ∧
          (setHistogramColumn defaultControls .petalWidth).scatter_x =
            defaultControls.scatter_x ∧
          (setHistogramColumn defaultControls .petalWidth).scatter_y =
            defaultControls.scatter_y)) ∧
      ((setHistogramBins defaultControls 33).histogram_column =
          defaultControls.histogram_column ∧
        (setHistogramBins defaultControls 33).scatter_x = defaultControls.scatter_x ∧
        (setHistogramBins defaultControls 33).scatter_y = defaultControls.scatter_y) ∧
      ((setScatterX defaultControls .petalWidth).histogram_column =
          defaultControls.histogram_column ∧
        (setScatterX defaultControls .petalWidth).histogram_bins =
          defaultControls.histogram_bins ∧
        (setScatterX defaultControls .petalWidth).scatter_y = defaultControls.scatter_y) ∧
      ((setScatterY defaultControls .petalWidth).histogram_column =
          defaultControls.histogram_column ∧
        (setScatterY defaultControls .petalWidth).histogram_bins =
          defaultControls.histogram_bins ∧
        (setScatterY defaultControls .petalWidth).scatter_x = defaultControls.scatter_x) :=
  ⟨⟨⟨by decide, by decide, by decide⟩,
      control_state_frame.1 defaultControls .petalWidth (by decide)⟩,
    control_state_frame.2.1 defaultControls 33 (by decide) (by decide),
    control_state_frame.2.2.1 defaultControls .petalWidth (by decide),
    control_state_frame.2.2.2 defaultControls .petalWidth (by decide)⟩

/-- The grand total of a histogram view over any dataset is the number of
records: the bin assignment partitions each per-species sublist over the
`n` bins, and the three species partition the records. -/
theorem histogramTotal_eq_length (ds : List Record) (c : Column) (n : ℕ) (hn : 0 < n) :
    histogramTotal (histogramView ds c n) = ds.length := by
  have hmap : (histogramView ds c n).map
      (fun b => b.setosaCount + b.versicolorCount + b.virginicaCount)
      = (List.range n).map
          (fun i => speciesBinCount ds c n .setosa i +
            (speciesBinCount ds c n .versicolor i + speciesBinCount ds c n .virginica i)) := by
    unfold histogramView
    rw [List.map_map]
    congr 1
    funext i
    show speciesBinCount ds c n .setosa i + speciesBinCount ds c n .versicolor i +
          speciesBinCount ds c n .virginica i
        = speciesBinCount ds c n .setosa i +
            (speciesBinCount ds c n .versicolor i + speciesBinCount ds c n .virginica i)
    omega
  have hs : ∀ sp : Species,
      ((List.range n).map (fun i => speciesBinCount ds c n sp i)).sum
        = (ds.filter (fun r => r.species = sp)).length := by
    intro sp
    unfold speciesBinCount
    exact length_filter_key_sum _ _ n (fun r _ => binIndex_lt _ _ _ _ hn)
  rw [histogramTotal, hmap, sum_map_add, sum_map_add, hs .setosa, hs .versicolor,
    hs .virginica]
  have hsp := three_species_length ds
  omega

/-- C1: for every bin count in [5,50] and every selected numeric column, the
histogram view has exactly that many equal-width bins, the first bin starts
at the column's observed minimum and the last bin ends at its observed
maximum, and the per-species counts summed over all bins and all 3 species
equal 150. -/
theorem histogram_view_partition (c : Column) (n : ℕ) (h5 : 5 ≤ n) (h50 : n ≤ 50) :
    (histogramView iris_df c n).length = n ∧
      ((histogramView iris_df c n).head?).map (fun b => b.lower)
        = some (listMin (columnValues iris_df c)) ∧
      ((histogramView iris_df c n).getLast?).map (fun b => b.upper)
        = some (listMax (columnValues iris_df c)) ∧
      (∀ b ∈ histogramView iris_df c n,
        b.upper - b.lower
          = (listMax (columnValues iris_df c) - listMin (columnValues iris_df c)) / n) ∧
      histogramTotal (histogramView iris_df c n) = 150 := by
  have hn : 0 < n := by omega
  obtain ⟨m, rfl⟩ : ∃ m, n = m + 1 := ⟨n - 1, by omega⟩
  refine ⟨?_, ?_, ?_, ?_, ?_⟩
  · simp [histogramView]
  · rw [histogramView, List.head?_map, List.range_succ_eq_map]
    simp
  · rw [histogramView, List.range_succ, List.map_append]
    simp only [List.map_cons, List.map_nil]
    rw [List.getLast?_concat]
    simp only [Option.map_some']
    rw [Option.some_inj]
    have hm1 : ((m : ℚ) + 1) ≠ 0 := by positivity
    push_cast
    field_simp
  · intro b hb
    rw [histogramView] at hb
    obtain ⟨i, _, rfl⟩ := List.mem_map.mp hb
    dsimp only
    have hm1 : ((m : ℚ) + 1) ≠ 0 := by positivity
    push_cast
    ring
  · rw [histogramTotal_eq_length iris_df c (m + 1) hn]
    decide

/-- Witness for C1 at the spec's example: histogram of petal length with 20
bins — 20 bins spanning the observed range whose per-species counts sum
to 150. -/
theorem histogram_view_partition_witness :
    (5 ≤ 20 ∧ 20 ≤ 50) ∧
      ((histogramView iris_df .petalLength 20).length = 20 ∧
        ((histogramView iris_df .petalLength 20).head?).map (fun b => b.lower)
          = some (listMin (columnValues iris_df .petalLength)) ∧
        ((histogramView iris_df .petalLength 20).getLast?).map (fun b => b.upper)
          = some (listMax (columnValues iris_df .petalLength)) ∧
        (∀ b ∈ histogramView iris_df .petalLength 20,
          b.upper - b.lower
            = (listMax (columnValues iris_df .petalLength)
                - listMin (columnValues iris_df .petalLength)) / 20) ∧
        histogramTotal (histogramView iris_df .petalLength 20) = 150) :=
  ⟨⟨by decide, by decide⟩, histogram_view_partition .petalLength 20 (by decide) (by decide)⟩

/-- C7 counterexample: the script's sidebar declares exactly four input
widgets, not five. -/
theorem sidebar_controls_not_five :
    sidebar_controls.length = 4 ∧ sidebar_controls.length ≠ 5 := by
  decide

/-- C7 amended: the user input surface is exactly *four* controls — the
histogram-column dropdown and the two scatter-axis dropdowns each range
over the 4 numeric feature columns, the bins slider has minimum 5,
maximum 50, step 1 and default 20, and the scatter X and Y dropdowns
default to two different columns (indices 0 and 1). -/
theorem sidebar_controls_config :
    sidebar_controls.length = 4 ∧
      sidebar_controls =
        [ .selectbox numeric_columns 0,
          .slider 5 50 20 1,
          .selectbox numeric_columns 0,
          .selectbox numeric_columns 1 ] ∧
      numeric_columns.length = 4 ∧
      feature_names.length = 4 ∧
      defaultControls.histogram_bins = 20 ∧
      defaultControls.scatter_x = Column.sepalLength ∧
      defaultControls.scatter_y = Column.sepalWidth ∧
      defaultControls.scatter_x ≠ defaultControls.scatter_y := by
  decide

/-- C8 (code bug): the heatmap does use the diverging `RdBu` scale centered
at `zmid = 0`, but its cell text template is the plain string `"%.2f"`,
which contains no braced `%`-variable reference; plotly therefore renders
the literal text `%.2f` in every cell — for any variable lookup — instead
of the correlation coefficient rounded to 2 decimals (e.g. `1.00` on the
diagonal). -/
theorem heatmap_text_not_rounded :
    heatmap.colorscale = "RdBu" ∧
      heatmap.zmid = 0 ∧
      heatmap.texttemplate = "%.2f" ∧
      (∀ lookup : String → String,
        renderTemplate lookup heatmap.texttemplate.data = "%.2f".data) ∧
      "%.2f" ≠ "1.00" := by
  refine ⟨rfl, rfl, rfl, ?_, by decide⟩
  intro lookup
  simp [renderTemplate, heatmap]

/-- C10: the render pass is deterministic and read-only — equal control
states over the same dataset produce identical render output (all four
derived views and both summary tables), and the pass returns the dataset
unchanged. -/
theorem render_pass_deterministic (ds : List Record) (cs1 cs2 : ControlState)
    (h : cs1 = cs2) :
    renderPass ds cs1 = renderPass ds cs2 ∧ (renderPass ds cs1).2 = ds :=
  ⟨by rw [h], rfl⟩

/-- Witness for C10 at concrete inputs: two runs over the loaded dataset
with the default control state agree, and the dataset is unchanged. -/
theorem render_pass_deterministic_witness :
    defaultControls = defaultControls ∧
      (renderPass iris_df defaultControls = renderPass iris_df defaultControls ∧
        (renderPass iris_df defaultControls).2 = iris_df) :=
  ⟨rfl, render_pass_deterministic iris_df defaultControls defaultControls rfl⟩

end IrisEDA

